import Mathlib

/-
Shallow embedding of `ipfx/nwb_reader.py` (AllenInstitute/allensdk.ipfx).

Modelling conventions:
- Python floats (sample values, conversion factors, sampling rates) are
  modelled as exact rationals `ℚ`; the float literals `1e3` and `1e12`
  become the rationals 1000 and 1000000000000.
- The external hierarchical data store (h5py) is modelled by explicit
  record types holding exactly the entries and attributes the reader code
  touches; reading an entry or attribute yields the stored value.
- Fallible Python code is embedded in `Except PyErr`; a raised exception
  is `.error`, a normal return `.ok`.
- A string-valued HDF5 entry may hold a scalar string or an array of
  strings (the code checks `isinstance(v, np.ndarray)` and takes `v[0]`,
  which raises IndexError on an empty array); this is `H5Str`.
-/

/-- Python exceptions raised by the reader code. -/
inductive PyErr where
  | keyError (key : String)
  | valueError (msg : String)
  | assertionError (msg : String)
  | nameError
  | indexError
  | attributeError
  deriving DecidableEq

/-- Value of an HDF5 string entry or attribute: a scalar string or an
array of strings. -/
inductive H5Str where
  | scalar (s : String)
  | array (xs : List String)
  deriving DecidableEq

/-- Decidable equality for `Except`, so closed runs of the embedded
readers can be evaluated by `decide`. -/
instance {ε α : Type} [DecidableEq ε] [DecidableEq α] : DecidableEq (Except ε α)
  | .ok a, .ok b =>
    if h : a = b then .isTrue (by rw [h])
    else .isFalse (by intro hh; cases hh; exact h rfl)
  | .ok _, .error _ => .isFalse (by intro hh; cases hh)
  | .error _, .ok _ => .isFalse (by intro hh; cases hh)
  | .error e, .error e' =>
    if h : e = e' then .isTrue (by rw [h])
    else .isFalse (by intro hh; cases hh; exact h rfl)

/-- Boolean test that the first list is an initial segment of the
second; helper for the string primitives below, which re-implement the
few Python string operations the reader uses by structural recursion so
that they evaluate under `decide`. -/
def charsPrefix : List Char → List Char → Bool
  | [], _ => true
  | _ :: _, [] => false
  | p :: ps, c :: cs => if p = c then charsPrefix ps cs else false

/-- Python `s.startswith(p)` (also the anchored `re.match` tests). -/
def strStartsWith (s p : String) : Bool := charsPrefix p.data s.data

/-- Helper for `splitDot`, accumulating the current token reversed. -/
def splitDotAux : List Char → List Char → List String
  | [], acc => [String.mk acc.reverse]
  | c :: cs, acc =>
    if c = '.' then String.mk acc.reverse :: splitDotAux cs []
    else splitDotAux cs (c :: acc)

/-- Python `s.split('.')`: tokens between the dots, empty tokens kept. -/
def splitDot (s : String) : List String := splitDotAux s.data []

/-- Digit-string accumulator for `strToInt`. -/
def digitsToNat : List Char → Nat → Option Nat
  | [], acc => some acc
  | c :: cs, acc =>
    if '0' ≤ c ∧ c ≤ '9' then digitsToNat cs (10 * acc + (c.toNat - '0'.toNat))
    else none

/-- Python `int(s)` on a plain decimal string: an optional leading '-'
followed by at least one digit; anything else raises ValueError,
modelled as `none`. -/
def strToInt (s : String) : Option Int :=
  match s.data with
  | [] => none
  | '-' :: rest =>
    match rest with
    | [] => none
    | _ => (digitsToNat rest 0).map (fun n => -(n : Int))
  | l => (digitsToNat l 0).map (fun n => (n : Int))

/-- Python `s[-n:] == p` for `p` of length `n`: true exactly when `s`
ends with `p` (for strings shorter than `n` the slice is all of `s`,
which cannot equal the length-`n` suffix). -/
def strEndsWith (s p : String) : Bool := charsPrefix p.data.reverse s.data.reverse

/-- Python `s[:-n]`. -/
def strDropRight (s : String) (n : Nat) : String :=
  String.mk (s.data.take (s.data.length - n))

/-- Association-list lookup, modelling indexing a keyed HDF5 group
(`f[name]`); `none` models a missing key. -/
def lookupEntry {κ α : Type} [DecidableEq κ] : List (κ × α) → κ → Option α
  | [], _ => none
  | (k, v) :: rest, n => if k = n then some v else lookupEntry rest n

/-- Embeds `get_long_unit_name` (nwb_reader.py lines 13-19): "A..." maps
to "Amps", "V..." to "Volts", anything else raises ValueError. -/
def get_long_unit_name (unit : String) : Except PyErr String :=
  if strStartsWith unit "A" then .ok "Amps"
  else if strStartsWith unit "V" then .ok "Volts"
  else .error (.valueError "Unit not recognized from TimeSeries")

/-- Result of the scan loop in `get_pipeline_version` over the
`generated_by` array: `found v` when the element after the first
occurrence of "version" is `v`; `missing` when "version" never occurs
(the local `version` stays unbound); `pastEnd` when "version" is the
final element, so `info[i+1]` raises IndexError. -/
inductive VersionScan where
  | found (v : String)
  | missing
  | pastEnd
  deriving DecidableEq

/-- Embeds the loop `for i in range(len(info)): if info[i] == 'version':
version = info[i+1]; break` (nwb_reader.py lines 86-89). -/
def scanVersion : List String → VersionScan
  | [] => .missing
  | [x] => if x = "version" then .pastEnd else .missing
  | x :: y :: rest => if x = "version" then .found y else scanVersion (y :: rest)

/-- Embeds `NwbReader.get_pipeline_version` (nwb_reader.py lines 69-97).
The argument is the `general/generated_by` array when present.  The
try/except covers the scan, the split and the int() parses, so a missing
group or key, an IndexError on `info[i+1]`, an unbound `version`, or an
unparsable token all degrade to (0, 0).  But `return major, minor` sits
outside the try block: when the found value splits into fewer than two
tokens, `major`/`minor` are never bound and the NameError at the return
propagates.  Python `int()` on a plain decimal token is modelled by
`strToInt`. -/
def NwbReader.get_pipeline_version (generated_by : Option (List String)) :
    Except PyErr (Int × Int) :=
  match generated_by with
  | none => .ok (0, 0)
  | some info =>
    match scanVersion info with
    | .missing => .ok (0, 0)
    | .pastEnd => .ok (0, 0)
    | .found v =>
      if 2 ≤ (splitDot v).length then
        match (((splitDot v).get? 0).bind strToInt),
              (((splitDot v).get? 1).bind strToInt) with
        | some major, some minor => .ok (major, minor)
        | some _, none => .ok (0, 0)
        | none, _ => .ok (0, 0)
      else .error .nameError

/-- Version descriptor returned by `get_nwb_version`; `major = none`
models the Python `None` ("unknown"). -/
structure VersionDescriptor where
  major : Option Nat
  full : Option String
  deriving DecidableEq

/-- File model for `get_nwb_version`: the optional "nwb_version" dataset
(v1 layout) and the optional "nwb_version" attribute (v2 layout). -/
structure VersionedFile where
  nwb_version_dataset : Option H5Str
  nwb_version_attr : Option String
  deriving DecidableEq

/-- Embeds `get_nwb_version` (nwb_reader.py lines 413-431).
`re.match("NWB-1", v)` anchors at the start, i.e. `v.startsWith "NWB-1"`.
When the v1 dataset holds an array, the code takes element 0, which
raises IndexError on an empty array.  In the v2 branch (line 427) the
code reads `f.attrs["nwb_version"].value`; h5py attribute access returns
the plain stored value (a str/bytes/ndarray), none of which has a
`.value` attribute, so reaching that branch always raises AttributeError,
and the `re.match("^2", ...)` test and the major-2 descriptor behind it
are dead code. -/
def get_nwb_version (f : VersionedFile) : Except PyErr VersionDescriptor :=
  match f.nwb_version_dataset with
  | some (.scalar s) =>
    if strStartsWith s "NWB-1" then .ok ⟨some 1, some s⟩ else .ok ⟨none, none⟩
  | some (.array []) => .error .indexError
  | some (.array (s :: _)) =>
    if strStartsWith s "NWB-1" then .ok ⟨some 1, some s⟩ else .ok ⟨none, none⟩
  | none =>
    match f.nwb_version_attr with
    | some _ => .error .attributeError
    | none => .ok ⟨none, none⟩

/-- Normalized sweep record returned by every `get_sweep_data`
(the five-field output contract). -/
structure SweepData where
  stimulus : List ℚ
  response : List ℚ
  stimulus_unit : String
  index_range : Int × Int
  sampling_rate : ℚ
  deriving DecidableEq

/-- One "Sweep_n" epoch entry of a pipeline-processed v1 file: the
stimulus and response timeseries data with their "conversion" attributes,
the optional stimulus "unit" attribute, the stimulus epoch's `idx_start`
and `count`, and the declared sampling rate. -/
structure PipelineSweep where
  stimulus_data : List ℚ
  stimulus_conversion : ℚ
  stimulus_unit_attr : Option String
  response_data : List ℚ
  response_conversion : ℚ
  idx_start : Int
  count : Int
  rate : ℚ
  deriving DecidableEq

/-- File model for `NwbPipelineReader`: the `general/generated_by`
provenance array, the `epochs/Sweep_n` entries keyed by sweep number, and
the `epochs/Experiment_n` entries keyed by sweep number, each reduced to
its stimulus epoch's `(idx_start, count)`. -/
structure PipelineFile where
  generated_by : Option (List String)
  sweeps : List (Nat × PipelineSweep)
  experiments : List (Nat × Int × Int)
  deriving DecidableEq

/-- Embeds `NwbPipelineReader.get_sweep_data` (nwb_reader.py lines
213-312).  The declared conversion factors are applied only when the
pipeline version gate `(major == 1 and minor > 0) or major > 1` holds
(lines 256-262); a NameError escaping `get_pipeline_version` propagates.
The unit rescale (lines 272-281) is written in the source as
`response *= 1e3,` etc.; the right-hand side is the one-element tuple
`(1e3,)`, which numpy broadcasts over the array, so the effect is
elementwise multiplication by the scalar.  The experiment lookup's
KeyError is caught and falls back to the full-sweep range (lines
291-300); the assert on line 302 checks the full sweep starts at 0. -/
def NwbPipelineReader.get_sweep_data (f : PipelineFile) (sweep_number : Nat) :
    Except PyErr SweepData :=
  match lookupEntry f.sweeps sweep_number with
  | none => .error (.keyError "Sweep")
  | some swp =>
    match NwbReader.get_pipeline_version f.generated_by with
    | .error e => .error e
    | .ok (major, minor) =>
      let stimulus₀ := if (major = 1 ∧ 0 < minor) ∨ 1 < major
        then swp.stimulus_data.map (· * swp.stimulus_conversion)
        else swp.stimulus_data
      let response₀ := if (major = 1 ∧ 0 < minor) ∨ 1 < major
        then swp.response_data.map (· * swp.response_conversion)
        else swp.response_data
      let unitRes : Except PyErr String :=
        match swp.stimulus_unit_attr with
        | some u => get_long_unit_name u
        | none => .ok "Unknown"
      match unitRes with
      | .error e => .error e
      | .ok unit_str =>
        let rescaled : Except PyErr (List ℚ × List ℚ) :=
          if unit_str = "Amps" then
            .ok (response₀.map (· * 1000), stimulus₀.map (· * 1000000000000))
          else if unit_str = "Volts" then
            .ok (response₀.map (· * 1000000000000), stimulus₀.map (· * 1000))
          else .error (.valueError "Unknown stimulus unit")
        match rescaled with
        | .error e => .error e
        | .ok (response, stimulus) =>
          let sweep_index_range : Int × Int :=
            (swp.idx_start, swp.idx_start + swp.count - 1)
          let index_range : Int × Int :=
            match lookupEntry f.experiments sweep_number with
            | some (exp_idx_start, exp_length) =>
              (exp_idx_start, exp_idx_start + exp_length - 1)
            | none => sweep_index_range
          if sweep_index_range.1 = 0 then
            .ok { stimulus := stimulus, response := response,
                  stimulus_unit := unit_str, index_range := index_range,
                  sampling_rate := swp.rate }
          else
            .error (.assertionError
              "index range of the full sweep does not start at 0.")

/-- Declared type of a pynwb TimeSeries object, as tested by the two
`isinstance` checks in `NwbXReader.get_sweep_data` (lines 172,177):
three response-bearing kinds, two stimulus-bearing kinds, and any other
TimeSeries type (carried with its type name). -/
inductive SeriesKind where
  | voltageClampSeries
  | currentClampSeries
  | iZeroClampSeries
  | voltageClampStimulusSeries
  | currentClampStimulusSeries
  | otherSeries (typeName : String)
  deriving DecidableEq

/-- The first `isinstance` check: response-bearing kinds. -/
def SeriesKind.isResponse : SeriesKind → Bool
  | .voltageClampSeries | .currentClampSeries | .iZeroClampSeries => true
  | _ => false

/-- The second `isinstance` check: stimulus-bearing kinds. -/
def SeriesKind.isStimulus : SeriesKind → Bool
  | .voltageClampStimulusSeries | .currentClampStimulusSeries => true
  | _ => false

/-- Neither response-bearing nor stimulus-bearing. -/
def SeriesKind.isOther : SeriesKind → Bool
  | .otherSeries _ => true
  | _ => false

/-- One pynwb TimeSeries of a sweep, reduced to the fields the reader
touches: its kind, data, conversion factor, unit, rate, and the channel
number parsed from its JSON description (used only for "abf" files;
`s.num_samples` is the length of `data`). -/
structure Series where
  kind : SeriesKind
  data : List ℚ
  conversion : ℚ
  unit : String
  rate : ℚ
  channel_number : Int
  deriving DecidableEq

/-- The four locals latched by the stimulus branch of the series loop
(lines 181-184). -/
structure StimulusInfo where
  stimulus : List ℚ
  stimulus_unit : String
  stimulus_rate : ℚ
  stimulus_index_range : Int × Int
  deriving DecidableEq

/-- Embeds the `for s in series` loop of `NwbXReader.get_sweep_data`
(lines 157-186), threading the `response` and `stimulus` accumulators.
For "abf" sources a channel number outside 1 and 5 raises, channel 5 is
skipped; a response-bearing series latches `response` once (a second
raises); a stimulus-bearing series latches stimulus data, unit, rate and
`index_range = (0, num_samples - 1)` once (a second raises); any other
series type raises. -/
def NwbXReader.seriesLoop (is_abf : Bool) :
    List Series → Option (List ℚ) → Option StimulusInfo →
    Except PyErr (Option (List ℚ) × Option StimulusInfo)
  | [], response, stimulus => .ok (response, stimulus)
  | s :: rest, response, stimulus =>
    if is_abf ∧ s.channel_number ≠ 1 ∧ s.channel_number ≠ 5 then
      .error (.valueError "Unexpected channel number for TimeSeries")
    else if is_abf ∧ s.channel_number = 5 then
      NwbXReader.seriesLoop is_abf rest response stimulus
    else if s.kind.isResponse then
      match response with
      | some _ =>
        .error (.valueError "Found multiple response TimeSeries in NWB file")
      | none =>
        NwbXReader.seriesLoop is_abf rest
          (some (s.data.map (· * s.conversion))) stimulus
    else if s.kind.isStimulus then
      match stimulus with
      | some _ =>
        .error (.valueError "Found multiple stimulus TimeSeries in NWB file")
      | none =>
        match get_long_unit_name s.unit with
        | .error e => .error e
        | .ok u =>
          NwbXReader.seriesLoop is_abf rest response
            (some ⟨s.data.map (· * s.conversion), u, s.rate,
                   (0, (s.data.length : Int) - 1)⟩)
    else .error (.valueError "Unexpected TimeSeries")

/-- File model for `NwbXReader`: the free-text experiment description and
the sweep table mapping a sweep number to its TimeSeries list (`None`
from `sweep_table.get_series` is a missing key). -/
structure XFile where
  experiment_description : String
  sweep_series : List (Nat × List Series)
  deriving DecidableEq

/-- Embeds `getRawDataSourceType` (lines 125-139), reduced to the tag of
the single flag set to True in the returned dict. -/
def getRawDataSourceType (experiment_description : String) : String :=
  if strStartsWith experiment_description "PatchMaster" then "dat"
  else if strStartsWith experiment_description "Clampex" then "abf"
  else "unknown"

/-- Embeds `NwbXReader.get_sweep_data` (lines 115-201): source check,
sweep-table lookup, series loop, the two missing-series checks and the
final equal-length assert. -/
def NwbXReader.get_sweep_data (f : XFile) (sweep_number : Nat) :
    Except PyErr SweepData :=
  let source := getRawDataSourceType f.experiment_description
  if source = "unknown" then
    .error (.assertionError "Can handle data from this raw data source")
  else
    match lookupEntry f.sweep_series sweep_number with
    | none => .error (.valueError "No TimeSeries found for sweep number")
    | some series =>
      match NwbXReader.seriesLoop (source == "abf") series none none with
      | .error e => .error e
      | .ok (responseAcc, stimulusAcc) =>
        match stimulusAcc with
        | none =>
          .error (.valueError "Could not find one stimulus TimeSeries")
        | some si =>
          match responseAcc with
          | none =>
            .error (.valueError "Could not find one response TimeSeries")
          | some response =>
            if si.stimulus.length = response.length then
              .ok { stimulus := si.stimulus, response := response,
                    stimulus_unit := si.stimulus_unit,
                    index_range := si.stimulus_index_range,
                    sampling_rate := si.stimulus_rate }
            else
              .error (.assertionError
                "Stimulus and response have a different length.")

/-- One sweep of a raw MIES v1 file.  The `data_%05d_AD0` acquisition
entry (response data, rate, "ancestry" attribute) and the matching
`data_%05d_DA0` stimulus-presentation entry (stimulus data, optional
"unit" attribute) are modelled as one record keyed by the sweep number.
The "ancestry" attribute holds the array of type names of the series;
Python's `in` is membership. -/
structure MiesSweep where
  response_data : List ℚ
  rate : ℚ
  stimulus_data : List ℚ
  stimulus_unit_attr : Option String
  ancestry : List String
  deriving DecidableEq

/-- File model for `NwbMiesReader`. -/
structure MiesFile where
  sweeps : List (Nat × MiesSweep)
  deriving DecidableEq

/-- Embeds `NwbMiesReader.get_sweep_data` (lines 349-383).  Modelled from
the spec: the external epoch-detection routines `st.get_experiment_epoch`
and `st.get_sweep_epoch` live in `ipfx/stim_features.py`, which is not
under src/; the spec treats them as external signal-analysis collaborators,
so they are taken here as function parameters.  The reader resolves the
unit inline (an unrecognized prefix fails the assert; an absent attribute
gives "Unknown"), then dispatches on the response ancestry: a member
"CurrentClampSeries" selects the experiment-epoch routine applied to
stimulus, response and rate; otherwise a member "VoltageClampSeries"
selects the sweep-epoch routine applied to the response; otherwise
ValueError "Unknown Clamp Mode". -/
def NwbMiesReader.get_sweep_data
    (get_experiment_epoch : List ℚ → List ℚ → ℚ → Int × Int)
    (get_sweep_epoch : List ℚ → Int × Int)
    (f : MiesFile) (sweep_number : Nat) : Except PyErr SweepData :=
  match lookupEntry f.sweeps sweep_number with
  | none => .error (.keyError "data")
  | some swp =>
    let unitRes : Except PyErr String :=
      match swp.stimulus_unit_attr with
      | some u =>
        if strStartsWith u "A" then .ok "Amps"
        else if strStartsWith u "V" then .ok "Volts"
        else .error (.assertionError "Stimulus time series unit not recognized")
      | none => .ok "Unknown"
    match unitRes with
    | .error e => .error e
    | .ok unit_str =>
      let rangeRes : Except PyErr (Int × Int) :=
        if swp.ancestry.contains "CurrentClampSeries" then
          .ok (get_experiment_epoch swp.stimulus_data swp.response_data swp.rate)
        else if swp.ancestry.contains "VoltageClampSeries" then
          .ok (get_sweep_epoch swp.response_data)
        else .error (.valueError "Unknown Clamp Mode")
      match rangeRes with
      | .error e => .error e
      | .ok index_range =>
        .ok { stimulus := swp.stimulus_data, response := swp.response_data,
              stimulus_unit := unit_str, index_range := index_range,
              sampling_rate := swp.rate }

/-- One `acquisition/timeseries` entry as consulted by the two
`get_stim_code` implementations: the optional
"aibs_stimulus_description" child (pipeline dialect) and the optional
"stimulus_description" child (MIES dialect). -/
structure AcqTimeSeries where
  aibs_stimulus_description : Option H5Str
  stimulus_description : Option H5Str
  deriving DecidableEq

/-- Embeds reading the raw stimulus-description value: `str()` of the
scalar, or of element 0 of an array (IndexError when empty). -/
def stimCodeOfRaw (raw : H5Str) : Except PyErr String :=
  match raw with
  | .scalar s => .ok s
  | .array [] => .error .indexError
  | .array (s :: _) => .ok s

/-- Embeds the shared trailing trim `if stim_code[-5:] == "_DA_0":
stim_code = stim_code[:-5]`; for strings shorter than five characters the
slice comparison is false, which coincides with `endsWith`. -/
def trimDA0 (s : String) : String :=
  if strEndsWith s "_DA_0" then strDropRight s 5 else s

/-- Embeds `NwbPipelineReader.get_stim_code` (lines 319-338): when the
sweep entry has no "aibs_stimulus_description" child, the local
`stim_code` is never bound and `return stim_code` raises NameError. -/
def NwbPipelineReader.get_stim_code
    (acquisition : List (String × AcqTimeSeries)) (sweep_name : String) :
    Except PyErr String :=
  match lookupEntry acquisition sweep_name with
  | none => .error (.keyError sweep_name)
  | some ts =>
    match ts.aibs_stimulus_description with
    | none => .error .nameError
    | some raw =>
      match stimCodeOfRaw raw with
      | .error e => .error e
      | .ok s => .ok (trimDA0 s)

/-- Embeds `NwbMiesReader.get_stim_code` (lines 391-410): identical to
the pipeline variant except the consulted child is
"stimulus_description". -/
def NwbMiesReader.get_stim_code
    (acquisition : List (String × AcqTimeSeries)) (sweep_name : String) :
    Except PyErr String :=
  match lookupEntry acquisition sweep_name with
  | none => .error (.keyError sweep_name)
  | some ts =>
    match ts.stimulus_description with
    | none => .error .nameError
    | some raw =>
      match stimCodeOfRaw raw with
      | .error e => .error e
      | .ok s => .ok (trimDA0 s)

/-- C9: the spec claims `get_pipeline_version` returns an integer pair and
never propagates a failure, every provenance-scan failure degrading to
(0, 0).  That fails when the found version value splits into fewer than
two '.'-tokens: `return major, minor` sits outside the try/except and
raises an uncaught NameError.  On the concrete provenance array
["version", "1"] the embedded function propagates that failure instead of
returning (0, 0). -/
theorem C9_counterexample_dotless_version :
    NwbReader.get_pipeline_version (some ["version", "1"]) =
      .error PyErr.nameError := by decide

/-- C9 (amended): `get_pipeline_version` degrades to (0, 0) on a missing
`generated_by` field, a malformed structure, or non-integer tokens — it
propagates a failure in exactly one case: a "version" value was found
whose '.'-split has fewer than two tokens, where the result variables are
never bound and an unbound-name failure (NameError) escapes. -/
theorem C9_pipeline_version_degrades (generated_by : Option (List String)) :
    (∀ e, NwbReader.get_pipeline_version generated_by = .error e →
      e = PyErr.nameError ∧ ∃ info v, generated_by = some info ∧
        scanVersion info = .found v ∧ (splitDot v).length < 2) ∧
    (∀ info v, generated_by = some info → scanVersion info = .found v →
      (splitDot v).length < 2 →
      NwbReader.get_pipeline_version generated_by = .error PyErr.nameError) ∧
    ((∀ info v, generated_by = some info → scanVersion info = .found v →
        2 ≤ (splitDot v).length) →
      ∃ p, NwbReader.get_pipeline_version generated_by = .ok p) := by
  refine ⟨?_, ?_, ?_⟩
  · intro e he
    cases hg : generated_by with
    | none => rw [hg] at he; simp [NwbReader.get_pipeline_version] at he
    | some info =>
      rw [hg] at he
      cases hscan : scanVersion info with
      | missing => simp [NwbReader.get_pipeline_version, hscan] at he
      | pastEnd => simp [NwbReader.get_pipeline_version, hscan] at he
      | found v =>
        simp only [NwbReader.get_pipeline_version, hscan] at he
        by_cases hlen : 2 ≤ (splitDot v).length
        · rw [if_pos hlen] at he
          split at he <;> simp_all
        · rw [if_neg hlen] at he
          refine ⟨by injection he with h; exact h.symm, info, v, rfl, hscan, ?_⟩
          omega
  · intro info v hg hscan hlen
    rw [hg]
    simp only [NwbReader.get_pipeline_version, hscan]
    rw [if_neg (by omega)]
  · intro hall
    cases hg : generated_by with
    | none => exact ⟨(0, 0), by simp [NwbReader.get_pipeline_version]⟩
    | some info =>
      cases hscan : scanVersion info with
      | missing => exact ⟨(0, 0), by simp [NwbReader.get_pipeline_version, hscan]⟩
      | pastEnd => exact ⟨(0, 0), by simp [NwbReader.get_pipeline_version, hscan]⟩
      | found v =>
        have hlen := hall info v hg hscan
        simp only [NwbReader.get_pipeline_version, hscan]
        rw [if_pos hlen]
        split
        · exact ⟨_, rfl⟩
        · exact ⟨(0, 0), rfl⟩
        · exact ⟨(0, 0), rfl⟩

/-- C9 witness: instantiates the amended theorem on the concrete
provenance array ["version", "1.5"], whose found value has two tokens, so
a pair is returned. -/
theorem C9_witness_good_version :
    ∃ p, NwbReader.get_pipeline_version (some ["version", "1.5"]) = .ok p :=
  C9_pipeline_version_degrades (some ["version", "1.5"]) |>.2.2
    (by
      intro info v h1 h2
      cases h1
      have hv : scanVersion ["version", "1.5"] = .found "1.5" := by decide
      rw [hv] at h2
      cases h2
      decide)

/-- File whose "nwb_version" dataset is stored as an empty array. -/
def emptyArrayVersionFile : VersionedFile :=
  { nwb_version_dataset := some (.array []), nwb_version_attr := none }

/-- Secondary raise path of `get_nwb_version`: an empty-array version
marker makes the element-0 access (`nwb_version = nwb_version[0]`) raise
IndexError. -/
theorem nwb_version_empty_array_raises :
    get_nwb_version emptyArrayVersionFile = .error PyErr.indexError := by decide

/-- File carrying the version marker as the v2-style attribute. -/
def v2AttrVersionFile : VersionedFile :=
  { nwb_version_dataset := none, nwb_version_attr := some "2.0b" }

/-- C8: the spec claims `get_nwb_version` always returns a descriptor
with major in 1, 2 or unknown and never raises; the factory dispatch to
the v2 reader depends on the major-2 descriptor this function is meant to
produce.  The code slips: its v2 branch reads
`f.attrs["nwb_version"].value`, and since h5py attribute values carry no
`.value`, every file that stores the marker as the v2-style attribute
makes the call raise AttributeError instead of returning the major-2
descriptor, as evaluated here on a concrete such file. -/
theorem C8_code_bug_v2_attribute_raises :
    get_nwb_version v2AttrVersionFile = .error PyErr.attributeError := by decide

/-- C10: in both major-version-1 readers, when the named sweep entry has
no stimulus-description child, `get_stim_code` reaches `return stim_code`
with `stim_code` never bound, so the call fails with an unhandled
NameError instead of returning a default or None. -/
theorem C10_stim_code_unbound_without_description
    (acquisition : List (String × AcqTimeSeries)) (sweep_name : String)
    (ts : AcqTimeSeries) (hts : lookupEntry acquisition sweep_name = some ts) :
    (ts.aibs_stimulus_description = none →
      NwbPipelineReader.get_stim_code acquisition sweep_name =
        .error PyErr.nameError) ∧
    (ts.stimulus_description = none →
      NwbMiesReader.get_stim_code acquisition sweep_name =
        .error PyErr.nameError) := by
  constructor
  · intro hd
    simp [NwbPipelineReader.get_stim_code, hts, hd]
  · intro hd
    simp [NwbMiesReader.get_stim_code, hts, hd]

/-- Acquisition group with one sweep entry lacking both
stimulus-description children. -/
def bareAcquisition : List (String × AcqTimeSeries) :=
  [("Sweep_4", { aibs_stimulus_description := none, stimulus_description := none })]

/-- C10 witness: instantiates the theorem on the concrete acquisition
group whose only sweep entry carries no stimulus description. -/
theorem C10_witness_bare_sweep :
    lookupEntry bareAcquisition "Sweep_4" =
      some { aibs_stimulus_description := none, stimulus_description := none } ∧
    NwbPipelineReader.get_stim_code bareAcquisition "Sweep_4" =
      .error PyErr.nameError ∧
    NwbMiesReader.get_stim_code bareAcquisition "Sweep_4" =
      .error PyErr.nameError :=
  ⟨by decide,
   (C10_stim_code_unbound_without_description bareAcquisition "Sweep_4"
      { aibs_stimulus_description := none, stimulus_description := none }
      (by decide)).1 rfl,
   (C10_stim_code_unbound_without_description bareAcquisition "Sweep_4"
      { aibs_stimulus_description := none, stimulus_description := none }
      (by decide)).2 rfl⟩

/-- Helper: complete run characterization of the pipeline reader once the
sweep entry is found and the pipeline version parses, by case analysis on
the unit attribute, the unit prefix and the start-index assert. -/
theorem pipeline_get_sweep_data_run
    (f : PipelineFile) (n : Nat) (swp : PipelineSweep) (major minor : Int)
    (hswp : lookupEntry f.sweeps n = some swp)
    (hver : NwbReader.get_pipeline_version f.generated_by = .ok (major, minor)) :
    NwbPipelineReader.get_sweep_data f n =
      match swp.stimulus_unit_attr with
      | none => Except.error (PyErr.valueError "Unknown stimulus unit")
      | some u =>
        if strStartsWith u "A" then
          if swp.idx_start = 0 then
            Except.ok
              { stimulus :=
                  (if (major = 1 ∧ 0 < minor) ∨ 1 < major
                   then swp.stimulus_data.map (· * swp.stimulus_conversion)
                   else swp.stimulus_data).map (· * 1000000000000)
              , response :=
                  (if (major = 1 ∧ 0 < minor) ∨ 1 < major
                   then swp.response_data.map (· * swp.response_conversion)
                   else swp.response_data).map (· * 1000)
              , stimulus_unit := "Amps"
              , index_range :=
                  match lookupEntry f.experiments n with
                  | some (es, ec) => (es, es + ec - 1)
                  | none => (swp.idx_start, swp.idx_start + swp.count - 1)
              , sampling_rate := swp.rate }
          else
            Except.error (PyErr.assertionError
              "index range of the full sweep does not start at 0.")
        else if strStartsWith u "V" then
          if swp.idx_start = 0 then
            Except.ok
              { stimulus :=
                  (if (major = 1 ∧ 0 < minor) ∨ 1 < major
                   then swp.stimulus_data.map (· * swp.stimulus_conversion)
                   else swp.stimulus_data).map (· * 1000)
              , response :=
                  (if (major = 1 ∧ 0 < minor) ∨ 1 < major
                   then swp.response_data.map (· * swp.response_conversion)
                   else swp.response_data).map (· * 1000000000000)
              , stimulus_unit := "Volts"
              , index_range :=
                  match lookupEntry f.experiments n with
                  | some (es, ec) => (es, es + ec - 1)
                  | none => (swp.idx_start, swp.idx_start + swp.count - 1)
              , sampling_rate := swp.rate }
          else
            Except.error (PyErr.assertionError
              "index range of the full sweep does not start at 0.")
        else
          Except.error (PyErr.valueError "Unit not recognized from TimeSeries") := by
  simp only [NwbPipelineReader.get_sweep_data, hswp, hver]
  cases hu : swp.stimulus_unit_attr with
  | none => simp
  | some u =>
    by_cases hA : strStartsWith u "A" = true
    · by_cases h0 : swp.idx_start = 0
      · simp [get_long_unit_name, hA, h0]
      · simp [get_long_unit_name, hA, h0]
    · by_cases hV : strStartsWith u "V" = true
      · by_cases h0 : swp.idx_start = 0
        · simp [get_long_unit_name, hA, hV, h0]
        · simp [get_long_unit_name, hA, hV, h0]
      · simp [get_long_unit_name, hA, hV]

/-- C1: for the PostProcessedReader, the declared conversion factors are
applied to the stimulus and response arrays if and only if the pipeline
version satisfies (major > 1) or (major == 1 and minor > 0); for (1, 0)
and below the raw stored values pass through (still subject to the fixed
unit rescale of the later step). -/
theorem C1_postprocessed_conversion_gate
    (f : PipelineFile) (n : Nat) (swp : PipelineSweep) (major minor : Int)
    (sd : SweepData)
    (hswp : lookupEntry f.sweeps n = some swp)
    (hver : NwbReader.get_pipeline_version f.generated_by = .ok (major, minor))
    (hok : NwbPipelineReader.get_sweep_data f n = .ok sd) :
    (((major = 1 ∧ 0 < minor) ∨ 1 < major) →
      sd.stimulus = (swp.stimulus_data.map (· * swp.stimulus_conversion)).map
          (· * (if sd.stimulus_unit = "Amps" then 1000000000000 else 1000)) ∧
      sd.response = (swp.response_data.map (· * swp.response_conversion)).map
          (· * (if sd.stimulus_unit = "Amps" then 1000 else 1000000000000))) ∧
    (¬ ((major = 1 ∧ 0 < minor) ∨ 1 < major) →
      sd.stimulus = swp.stimulus_data.map
          (· * (if sd.stimulus_unit = "Amps" then 1000000000000 else 1000)) ∧
      sd.response = swp.response_data.map
          (· * (if sd.stimulus_unit = "Amps" then 1000 else 1000000000000))) := by
  rw [pipeline_get_sweep_data_run f n swp major minor hswp hver] at hok
  cases hu : swp.stimulus_unit_attr with
  | none => simp only [hu] at hok; cases hok
  | some u =>
    simp only [hu] at hok
    by_cases hA : strStartsWith u "A" = true
    · rw [if_pos hA] at hok
      by_cases h0 : swp.idx_start = 0
      · rw [if_pos h0] at hok
        injection hok with hok
        subst hok
        constructor
        · intro hg; simp [if_pos hg]
        · intro hg; simp [if_neg hg]
      · rw [if_neg h0] at hok; cases hok
    · rw [if_neg hA] at hok
      by_cases hV : strStartsWith u "V" = true
      · rw [if_pos hV] at hok
        by_cases h0 : swp.idx_start = 0
        · rw [if_pos h0] at hok
          injection hok with hok
          subst hok
          constructor
          · intro hg; simp [if_pos hg]
          · intro hg; simp [if_neg hg]
        · rw [if_neg h0] at hok; cases hok
      · rw [if_neg hV] at hok; cases hok

/-- Concrete sweep whose data and conversion factors are simple enough to
evaluate. -/
def swpV11 : PipelineSweep :=
  { stimulus_data := [1], stimulus_conversion := 1, stimulus_unit_attr := some "A"
  , response_data := [1], response_conversion := 1, idx_start := 0, count := 1
  , rate := 1 }

/-- Concrete pipeline file carrying provenance version "1.1". -/
def pipelineFileV11 : PipelineFile :=
  { generated_by := some ["version", "1.1"], sweeps := [(0, swpV11)]
  , experiments := [] }

/-- Expected run result on `pipelineFileV11`. -/
def sdV11 : SweepData :=
  { stimulus := [1000000000000], response := [1000], stimulus_unit := "Amps"
  , index_range := (0, 0), sampling_rate := 1 }

/-- C1 witness: instantiates the gate theorem on a concrete file with
version (1, 1), where the gate holds and the conversion is applied. -/
theorem C1_witness_v11_applies_conversion :
    NwbPipelineReader.get_sweep_data pipelineFileV11 0 = Except.ok sdV11 ∧
    (sdV11.stimulus = (swpV11.stimulus_data.map (· * swpV11.stimulus_conversion)).map
        (· * (if sdV11.stimulus_unit = "Amps" then 1000000000000 else 1000)) ∧
     sdV11.response = (swpV11.response_data.map (· * swpV11.response_conversion)).map
        (· * (if sdV11.stimulus_unit = "Amps" then 1000 else 1000000000000))) := by
  have hok : NwbPipelineReader.get_sweep_data pipelineFileV11 0 = Except.ok sdV11 := by
    rw [pipeline_get_sweep_data_run pipelineFileV11 0 swpV11 1 1 (by decide) (by decide)]
    simp [swpV11, sdV11, pipelineFileV11, lookupEntry, strStartsWith, charsPrefix]
  exact ⟨hok,
    (C1_postprocessed_conversion_gate pipelineFileV11 0 swpV11 1 1 sdV11
      (by decide) (by decide) hok).1 (by decide)⟩

/-- C2: for the PostProcessedReader, after unit resolution the arrays are
rescaled by fixed factors: unit Amps gives response ×10³ and stimulus
×10¹²; unit Volts gives response ×10¹² and stimulus ×10³; a resolved
Unknown unit (absent attribute) makes `get_sweep_data` fail with the
unknown-stimulus-unit error. -/
theorem C2_postprocessed_unit_rescale
    (f : PipelineFile) (n : Nat) (swp : PipelineSweep) (major minor : Int)
    (hswp : lookupEntry f.sweeps n = some swp)
    (hver : NwbReader.get_pipeline_version f.generated_by = .ok (major, minor)) :
    (∀ u, swp.stimulus_unit_attr = some u → strStartsWith u "A" = true →
      ∀ sd, NwbPipelineReader.get_sweep_data f n = .ok sd →
        sd.stimulus_unit = "Amps" ∧
        sd.stimulus =
          (if (major = 1 ∧ 0 < minor) ∨ 1 < major
           then swp.stimulus_data.map (· * swp.stimulus_conversion)
           else swp.stimulus_data).map (· * 1000000000000) ∧
        sd.response =
          (if (major = 1 ∧ 0 < minor) ∨ 1 < major
           then swp.response_data.map (· * swp.response_conversion)
           else swp.response_data).map (· * 1000)) ∧
    (∀ u, swp.stimulus_unit_attr = some u → strStartsWith u "A" = false →
      strStartsWith u "V" = true →
      ∀ sd, NwbPipelineReader.get_sweep_data f n = .ok sd →
        sd.stimulus_unit = "Volts" ∧
        sd.stimulus =
          (if (major = 1 ∧ 0 < minor) ∨ 1 < major
           then swp.stimulus_data.map (· * swp.stimulus_conversion)
           else swp.stimulus_data).map (· * 1000) ∧
        sd.response =
          (if (major = 1 ∧ 0 < minor) ∨ 1 < major
           then swp.response_data.map (· * swp.response_conversion)
           else swp.response_data).map (· * 1000000000000)) ∧
    (swp.stimulus_unit_attr = none →
      NwbPipelineReader.get_sweep_data f n =
        .error (.valueError "Unknown stimulus unit")) := by
  refine ⟨?_, ?_, ?_⟩
  · intro u hu hA sd hok
    rw [pipeline_get_sweep_data_run f n swp major minor hswp hver] at hok
    simp only [hu, hA, if_true] at hok
    by_cases h0 : swp.idx_start = 0
    · rw [if_pos h0] at hok
      injection hok with hok
      subst hok
      exact ⟨rfl, rfl, rfl⟩
    · rw [if_neg h0] at hok; cases hok
  · intro u hu hA hV sd hok
    rw [pipeline_get_sweep_data_run f n swp major minor hswp hver] at hok
    simp only [hu, hA, hV, Bool.false_eq_true, if_false, if_true] at hok
    by_cases h0 : swp.idx_start = 0
    · rw [if_pos h0] at hok
      injection hok with hok
      subst hok
      exact ⟨rfl, rfl, rfl⟩
    · rw [if_neg h0] at hok; cases hok
  · intro hu
    rw [pipeline_get_sweep_data_run f n swp major minor hswp hver]
    simp only [hu]

/-- Concrete volts sweep with nontrivial conversion factors and pipeline
version (1, 0), so the gate is off and the raw values only get the fixed
rescale. -/
def swpVolts : PipelineSweep :=
  { stimulus_data := [1], stimulus_conversion := 7, stimulus_unit_attr := some "V"
  , response_data := [1], response_conversion := 9, idx_start := 0, count := 1
  , rate := 2 }

/-- Concrete pipeline file carrying provenance version "1.0". -/
def pipelineFileV10 : PipelineFile :=
  { generated_by := some ["version", "1.0"], sweeps := [(0, swpVolts)]
  , experiments := [] }

/-- C2 witness: instantiates the rescale theorem's Volts branch on a
concrete (1, 0) file: stimulus ×10³ and response ×10¹², conversion
factors ignored. -/
theorem C2_witness_volts_rescale :
    NwbPipelineReader.get_sweep_data pipelineFileV10 0 =
      Except.ok { stimulus := [1000], response := [1000000000000]
                , stimulus_unit := "Volts", index_range := (0, 0)
                , sampling_rate := 2 } ∧
    ∀ sd, NwbPipelineReader.get_sweep_data pipelineFileV10 0 = .ok sd →
      sd.stimulus_unit = "Volts" ∧
      sd.stimulus =
        (if ((1 : Int) = 1 ∧ (0 : Int) < 0) ∨ 1 < (1 : Int)
         then swpVolts.stimulus_data.map (· * swpVolts.stimulus_conversion)
         else swpVolts.stimulus_data).map (· * 1000) ∧
      sd.response =
        (if ((1 : Int) = 1 ∧ (0 : Int) < 0) ∨ 1 < (1 : Int)
         then swpVolts.response_data.map (· * swpVolts.response_conversion)
         else swpVolts.response_data).map (· * 1000000000000) := by
  constructor
  · rw [pipeline_get_sweep_data_run pipelineFileV10 0 swpVolts 1 0 (by decide) (by decide)]
    simp [swpVolts, pipelineFileV10, lookupEntry, strStartsWith, charsPrefix]
  · exact (C2_postprocessed_unit_rescale pipelineFileV10 0 swpVolts 1 0
      (by decide) (by decide)).2.1 "V" rfl (by decide) (by decide)

/-- C6: for the PostProcessedReader, when an Experiment sub-entry exists
for the sweep number the returned index_range is that entry's
(start, start + count − 1); when none exists this is not an error and
the range is the full sweep's own (start, start + count − 1); in either
case the full sweep's declared start must be 0 or the call fails with the
start-at-0 assertion. -/
theorem C6_postprocessed_experiment_range
    (f : PipelineFile) (n : Nat) (swp : PipelineSweep) (major minor : Int)
    (u : String)
    (hswp : lookupEntry f.sweeps n = some swp)
    (hver : NwbReader.get_pipeline_version f.generated_by = .ok (major, minor))
    (hu : swp.stimulus_unit_attr = some u)
    (hk : strStartsWith u "A" = true ∨ strStartsWith u "V" = true) :
    (swp.idx_start = 0 →
      ∃ sd, NwbPipelineReader.get_sweep_data f n = .ok sd ∧
        sd.index_range =
          (match lookupEntry f.experiments n with
           | some (es, ec) => (es, es + ec - 1)
           | none => (swp.idx_start, swp.idx_start + swp.count - 1))) ∧
    (swp.idx_start ≠ 0 →
      NwbPipelineReader.get_sweep_data f n =
        .error (.assertionError
          "index range of the full sweep does not start at 0.")) := by
  rw [pipeline_get_sweep_data_run f n swp major minor hswp hver]
  simp only [hu]
  constructor
  · intro h0
    by_cases hA : strStartsWith u "A" = true
    · simp only [hA, if_true, if_pos h0]
      exact ⟨_, rfl, rfl⟩
    · have hV : strStartsWith u "V" = true := hk.resolve_left hA
      simp only [hA, hV, Bool.false_eq_true, if_false, if_true, if_pos h0]
      exact ⟨_, rfl, rfl⟩
  · intro h0
    by_cases hA : strStartsWith u "A" = true
    · simp only [hA, if_true, if_neg h0]
    · have hV : strStartsWith u "V" = true := hk.resolve_left hA
      simp only [hA, hV, Bool.false_eq_true, if_false, if_true, if_neg h0]

/-- Concrete pipeline file with an Experiment entry narrowing the range
of sweep 0 to (2, 2 + 3 − 1). -/
def pipelineFileWithExperiment : PipelineFile :=
  { generated_by := none, sweeps := [(0, swpVolts)], experiments := [(0, 2, 3)] }

/-- C6 witness: instantiates the range theorem on a concrete file with an
Experiment entry, and on one without, observing the narrowed range and
the full-sweep fallback respectively. -/
theorem C6_witness_experiment_and_fallback :
    (∃ sd, NwbPipelineReader.get_sweep_data pipelineFileWithExperiment 0 =
        .ok sd ∧ sd.index_range = (2, 4)) ∧
    (∃ sd, NwbPipelineReader.get_sweep_data pipelineFileV10 0 =
        .ok sd ∧ sd.index_range = (0, 0)) := by
  constructor
  · have h := (C6_postprocessed_experiment_range pipelineFileWithExperiment 0
      swpVolts 0 0 "V" (by decide) (by decide) rfl (Or.inr (by decide))).1 (by decide)
    obtain ⟨sd, hok, hrange⟩ := h
    exact ⟨sd, hok, by rw [hrange]; decide⟩
  · have h := (C6_postprocessed_experiment_range pipelineFileV10 0
      swpVolts 1 0 "V" (by decide) (by decide) rfl (Or.inr (by decide))).1 (by decide)
    obtain ⟨sd, hok, hrange⟩ := h
    exact ⟨sd, hok, by rw [hrange]; decide⟩

/-- Series of a sweep that reach the classification step of the series
loop: for "abf" sources the channel-5 feedback series are skipped, for
other sources every series is examined. -/
def retainedFor (is_abf : Bool) (ss : List Series) : List Series :=
  if is_abf then ss.filter (fun s => s.channel_number != 5) else ss

/-- Number of series of a given kind class in a list. -/
def countKind (p : SeriesKind → Bool) (ss : List Series) : Nat :=
  (ss.filter (fun s => p s.kind)).length

/-- A response-bearing kind is not stimulus-bearing. -/
theorem response_kind_not_stimulus (k : SeriesKind) (h : k.isResponse = true) :
    k.isStimulus = false := by
  cases k <;> simp_all [SeriesKind.isResponse, SeriesKind.isStimulus]

/-- A response-bearing kind is not an unexpected kind. -/
theorem response_kind_not_other (k : SeriesKind) (h : k.isResponse = true) :
    k.isOther = false := by
  cases k <;> simp_all [SeriesKind.isResponse, SeriesKind.isOther]

/-- A stimulus-bearing kind is not an unexpected kind. -/
theorem stimulus_kind_not_other (k : SeriesKind) (h : k.isStimulus = true) :
    k.isOther = false := by
  cases k <;> simp_all [SeriesKind.isStimulus, SeriesKind.isOther]

/-- A kind that is neither response- nor stimulus-bearing is unexpected. -/
theorem other_kind_of_not_response_stimulus (k : SeriesKind)
    (h1 : k.isResponse = false) (h2 : k.isStimulus = false) :
    k.isOther = true := by
  cases k <;> simp_all [SeriesKind.isResponse, SeriesKind.isStimulus, SeriesKind.isOther]

/-- Unfolding `countKind` over a cons cell. -/
theorem countKind_cons (p : SeriesKind → Bool) (s : Series) (l : List Series) :
    countKind p (s :: l) = (if p s.kind then 1 else 0) + countKind p l := by
  simp only [countKind, List.filter_cons]
  split
  · simp [Nat.add_comm]
  · simp

/-- Loop invariant: on a successful pass of the series loop, the number
of retained response-bearing series together with an already-latched
response accumulator account for the final accumulator (which therefore
never exceeds one), likewise for stimulus-bearing series, and no retained
series is of an unexpected kind. -/
theorem seriesLoop_counts (is_abf : Bool) (ss : List Series)
    (resp' : Option (List ℚ)) (stim' : Option StimulusInfo) :
    ∀ (resp : Option (List ℚ)) (stim : Option StimulusInfo),
      NwbXReader.seriesLoop is_abf ss resp stim = .ok (resp', stim') →
      (countKind SeriesKind.isResponse (retainedFor is_abf ss) +
        (if resp.isSome then 1 else 0) = (if resp'.isSome then 1 else 0)) ∧
      (countKind SeriesKind.isStimulus (retainedFor is_abf ss) +
        (if stim.isSome then 1 else 0) = (if stim'.isSome then 1 else 0)) ∧
      countKind SeriesKind.isOther (retainedFor is_abf ss) = 0 := by
  induction ss with
  | nil =>
    intro resp stim hok
    simp only [NwbXReader.seriesLoop] at hok
    injection hok with hok
    injection hok with h1 h2
    subst h1; subst h2
    simp [retainedFor, countKind]
  | cons s rest ih =>
    intro resp stim hok
    by_cases hbad : (is_abf = true ∧ s.channel_number ≠ 1 ∧ s.channel_number ≠ 5)
    · simp only [NwbXReader.seriesLoop, if_pos hbad] at hok
      cases hok
    · by_cases hskip : (is_abf = true ∧ s.channel_number = 5)
      · simp only [NwbXReader.seriesLoop, if_neg hbad, if_pos hskip] at hok
        have hret : retainedFor is_abf (s :: rest) = retainedFor is_abf rest := by
          simp [retainedFor, hskip.1, List.filter_cons, hskip.2]
        rw [hret]
        exact ih resp stim hok
      · have hret : retainedFor is_abf (s :: rest) =
            s :: retainedFor is_abf rest := by
          cases hab : is_abf with
          | false => simp [retainedFor]
          | true =>
            have h5 : s.channel_number ≠ 5 := fun h => hskip ⟨hab, h⟩
            simp [retainedFor, List.filter_cons, h5]
        rw [hret]
        simp only [NwbXReader.seriesLoop, if_neg hbad, if_neg hskip] at hok
        by_cases hresp : s.kind.isResponse = true
        · rw [if_pos hresp] at hok
          cases hr : resp with
          | some r => rw [hr] at hok; simp at hok
          | none =>
            rw [hr] at hok
            have hrec := ih (some (s.data.map (· * s.conversion))) stim hok
            simp only [countKind_cons, hresp,
              response_kind_not_stimulus s.kind hresp,
              response_kind_not_other s.kind hresp] at hrec ⊢
            simp only [Option.isSome_some, Option.isSome_none, if_true, if_false,
              Bool.false_eq_true] at hrec ⊢
            omega
        · rw [if_neg hresp] at hok
          by_cases hstim : s.kind.isStimulus = true
          · rw [if_pos hstim] at hok
            cases hs : stim with
            | some si => rw [hs] at hok; simp at hok
            | none =>
              rw [hs] at hok
              cases hu : get_long_unit_name s.unit with
              | error e => rw [hu] at hok; simp at hok
              | ok u =>
                rw [hu] at hok
                have hrec := ih resp
                  (some ⟨s.data.map (· * s.conversion), u, s.rate,
                         (0, (s.data.length : Int) - 1)⟩) hok
                have hnr : s.kind.isResponse = false := by
                  cases hx : s.kind.isResponse
                  · rfl
                  · exact absurd hx hresp
                simp only [countKind_cons, hstim, hnr,
                  stimulus_kind_not_other s.kind hstim] at hrec ⊢
                simp only [Option.isSome_some, Option.isSome_none, if_true, if_false,
                  Bool.false_eq_true] at hrec ⊢
                omega
          · rw [if_neg hstim] at hok
            cases hok

/-- Helper: shape of a successful `NwbXReader.get_sweep_data` run: the
sweep table had the series, the loop latched exactly one response and one
stimulus accumulator, the record is assembled from them, and the length
assert passed. -/
theorem x_get_sweep_data_ok (f : XFile) (n : Nat) (sd : SweepData)
    (hok : NwbXReader.get_sweep_data f n = .ok sd) :
    ∃ series resp si, lookupEntry f.sweep_series n = some series ∧
      NwbXReader.seriesLoop (getRawDataSourceType f.experiment_description == "abf")
        series none none = .ok (some resp, some si) ∧
      sd = { stimulus := si.stimulus, response := resp
           , stimulus_unit := si.stimulus_unit
           , index_range := si.stimulus_index_range
           , sampling_rate := si.stimulus_rate } ∧
      si.stimulus.length = resp.length := by
  simp only [NwbXReader.get_sweep_data] at hok
  by_cases hun : getRawDataSourceType f.experiment_description = "unknown"
  · rw [if_pos hun] at hok; cases hok
  · rw [if_neg hun] at hok
    cases hser : lookupEntry f.sweep_series n with
    | none => simp only [hser] at hok; cases hok
    | some series =>
      simp only [hser] at hok
      cases hloop : NwbXReader.seriesLoop
          (getRawDataSourceType f.experiment_description == "abf")
          series none none with
      | error e => simp only [hloop] at hok; cases hok
      | ok p =>
        obtain ⟨respAcc, stimAcc⟩ := p
        simp only [hloop] at hok
        cases stimAcc with
        | none => cases hok
        | some si =>
          cases respAcc with
          | none => simp only [] at hok; cases hok
          | some resp =>
            simp only [] at hok
            by_cases hlen : si.stimulus.length = resp.length
            · rw [if_pos hlen] at hok
              injection hok with hok
              exact ⟨series, resp, si, rfl, hloop, hok.symm, hlen⟩
            · rw [if_neg hlen] at hok; cases hok

/-- Loop invariant: any stimulus accumulator produced by the series loop
carries `index_range = (0, length − 1)` computed from its own data. -/
theorem seriesLoop_stim_range (is_abf : Bool) (ss : List Series)
    (resp' : Option (List ℚ)) (stim' : Option StimulusInfo) :
    ∀ (resp : Option (List ℚ)) (stim : Option StimulusInfo),
      (∀ si, stim = some si →
        si.stimulus_index_range = (0, (si.stimulus.length : Int) - 1)) →
      NwbXReader.seriesLoop is_abf ss resp stim = .ok (resp', stim') →
      ∀ si, stim' = some si →
        si.stimulus_index_range = (0, (si.stimulus.length : Int) - 1) := by
  induction ss with
  | nil =>
    intro resp stim hinv hok si hsi
    simp only [NwbXReader.seriesLoop] at hok
    injection hok with hok
    injection hok with h1 h2
    subst h2
    exact hinv si hsi
  | cons s rest ih =>
    intro resp stim hinv hok si hsi
    by_cases hbad : (is_abf = true ∧ s.channel_number ≠ 1 ∧ s.channel_number ≠ 5)
    · simp only [NwbXReader.seriesLoop, if_pos hbad] at hok
      cases hok
    · by_cases hskip : (is_abf = true ∧ s.channel_number = 5)
      · simp only [NwbXReader.seriesLoop, if_neg hbad, if_pos hskip] at hok
        exact ih resp stim hinv hok si hsi
      · simp only [NwbXReader.seriesLoop, if_neg hbad, if_neg hskip] at hok
        by_cases hresp : s.kind.isResponse = true
        · rw [if_pos hresp] at hok
          cases hr : resp with
          | some r => rw [hr] at hok; cases hok
          | none =>
            rw [hr] at hok
            exact ih _ stim hinv hok si hsi
        · rw [if_neg hresp] at hok
          by_cases hstim : s.kind.isStimulus = true
          · rw [if_pos hstim] at hok
            cases hs : stim with
            | some si0 => rw [hs] at hok; cases hok
            | none =>
              rw [hs] at hok
              cases hu : get_long_unit_name s.unit with
              | error e => rw [hu] at hok; cases hok
              | ok u =>
                rw [hu] at hok
                refine ih resp _ ?_ hok si hsi
                intro si1 hsi1
                injection hsi1 with hsi1
                subst hsi1
                simp
          · rw [if_neg hstim] at hok
            cases hok

/-- C5: for the ConvertedReader, among the retained series of a sweep a
second response-bearing series (voltage-, current- or zero-clamp kind) is
a fatal duplicate-response error, a second stimulus-bearing series a
fatal duplicate-stimulus error, a series of any other kind a fatal
unexpected-series error, and a successful run found exactly one stimulus
and one response (absence of either being fatal) with lengths matching
exactly. -/
theorem C5_converted_series_classification :
    (∀ (is_abf : Bool) (s : Series) (rest : List Series) (r : List ℚ)
       (stim : Option StimulusInfo),
      (is_abf = true → s.channel_number = 1) → s.kind.isResponse = true →
      NwbXReader.seriesLoop is_abf (s :: rest) (some r) stim =
        .error (.valueError "Found multiple response TimeSeries in NWB file")) ∧
    (∀ (is_abf : Bool) (s : Series) (rest : List Series)
       (resp : Option (List ℚ)) (si : StimulusInfo),
      (is_abf = true → s.channel_number = 1) → s.kind.isStimulus = true →
      NwbXReader.seriesLoop is_abf (s :: rest) resp (some si) =
        .error (.valueError "Found multiple stimulus TimeSeries in NWB file")) ∧
    (∀ (is_abf : Bool) (t : String) (s : Series) (rest : List Series)
       (resp : Option (List ℚ)) (stim : Option StimulusInfo),
      (is_abf = true → s.channel_number = 1) → s.kind = .otherSeries t →
      NwbXReader.seriesLoop is_abf (s :: rest) resp stim =
        .error (.valueError "Unexpected TimeSeries")) ∧
    (∀ (f : XFile) (n : Nat) (sd : SweepData),
      NwbXReader.get_sweep_data f n = .ok sd →
      ∃ series, lookupEntry f.sweep_series n = some series ∧
        countKind SeriesKind.isResponse
          (retainedFor (getRawDataSourceType f.experiment_description == "abf")
            series) = 1 ∧
        countKind SeriesKind.isStimulus
          (retainedFor (getRawDataSourceType f.experiment_description == "abf")
            series) = 1 ∧
        countKind SeriesKind.isOther
          (retainedFor (getRawDataSourceType f.experiment_description == "abf")
            series) = 0 ∧
        sd.stimulus.length = sd.response.length) := by
  have hchan : ∀ (is_abf : Bool) (s : Series),
      (is_abf = true → s.channel_number = 1) →
      ¬(is_abf = true ∧ s.channel_number ≠ 1 ∧ s.channel_number ≠ 5) ∧
      ¬(is_abf = true ∧ s.channel_number = 5) := by
    intro is_abf s hch
    constructor
    · rintro ⟨hab, h1, _⟩; exact h1 (hch hab)
    · rintro ⟨hab, h5⟩
      rw [hch hab] at h5
      exact absurd h5 (by decide)
  refine ⟨?_, ?_, ?_, ?_⟩
  · intro is_abf s rest r stim hch hresp
    obtain ⟨hbad, hskip⟩ := hchan is_abf s hch
    simp only [NwbXReader.seriesLoop, if_neg hbad, if_neg hskip, hresp, if_true]
  · intro is_abf s rest resp si hch hstim
    obtain ⟨hbad, hskip⟩ := hchan is_abf s hch
    have hnr : s.kind.isResponse = false := by
      cases hx : s.kind.isResponse
      · rfl
      · exact absurd (response_kind_not_stimulus s.kind hx) (by simp [hstim])
    simp only [NwbXReader.seriesLoop, if_neg hbad, if_neg hskip, hnr, hstim,
      Bool.false_eq_true, if_false, if_true]
  · intro is_abf t s rest resp stim hch hkind
    obtain ⟨hbad, hskip⟩ := hchan is_abf s hch
    simp only [NwbXReader.seriesLoop, if_neg hbad, if_neg hskip, hkind,
      SeriesKind.isResponse, SeriesKind.isStimulus, Bool.false_eq_true,
      if_false]
  · intro f n sd hok
    obtain ⟨series, resp, si, hser, hloop, hsd, hlen⟩ :=
      x_get_sweep_data_ok f n sd hok
    obtain ⟨h1, h2, h3⟩ := seriesLoop_counts
      (getRawDataSourceType f.experiment_description == "abf")
      series (some resp) (some si) none none hloop
    refine ⟨series, hser, ?_, ?_, h3, ?_⟩
    · simpa using h1
    · simpa using h2
    · rw [hsd]; exact hlen

/-- Concrete stimulus-bearing series. -/
def stimSeriesEx : Series :=
  { kind := .currentClampStimulusSeries, data := [1, 1], conversion := 1
  , unit := "A", rate := 50, channel_number := 1 }

/-- Concrete response-bearing series. -/
def respSeriesEx : Series :=
  { kind := .currentClampSeries, data := [1, 1], conversion := 1
  , unit := "V", rate := 50, channel_number := 1 }

/-- Concrete converted ("dat"-sourced) file with one well-formed sweep. -/
def xFileEx : XFile :=
  { experiment_description := "PatchMaster v2x90"
  , sweep_series := [(3, [stimSeriesEx, respSeriesEx])] }

/-- C5 witness: instantiates the duplicate-response conjunct on a
concrete retained response series arriving while a response is already
latched. -/
theorem C5_witness_duplicate_response :
    respSeriesEx.kind.isResponse = true ∧
    NwbXReader.seriesLoop false [respSeriesEx] (some [1]) none =
      .error (.valueError "Found multiple response TimeSeries in NWB file") :=
  ⟨rfl, C5_converted_series_classification.1 false respSeriesEx [] [1] none
    (fun _ => rfl) rfl⟩

/-- Pipeline-dialect file whose stored stimulus and response arrays have
different lengths; nothing in the reader checks them against each other. -/
def swpLenMismatch : PipelineSweep :=
  { stimulus_data := [1], stimulus_conversion := 1
  , stimulus_unit_attr := some "A"
  , response_data := [1, 1], response_conversion := 1
  , idx_start := 0, count := 1, rate := 1 }

/-- File holding the mismatched sweep. -/
def pipelineFileLenMismatch : PipelineFile :=
  { generated_by := none
  , sweeps := [(0, swpLenMismatch)]
  , experiments := [] }

/-- C3: the spec claims every dialect returns stimulus and response of
equal length on success.  Only the ConvertedReader asserts this; the
PostProcessedReader returns the stored arrays unchecked, so a file with a
1-sample stimulus and a 2-sample response succeeds with unequal lengths. -/
theorem C3_counterexample_unequal_lengths :
    NwbPipelineReader.get_sweep_data pipelineFileLenMismatch 0 =
      Except.ok { stimulus := [1000000000000], response := [1000, 1000]
                , stimulus_unit := "Amps", index_range := (0, 0)
                , sampling_rate := 1 } ∧
    ([1000000000000] : List ℚ).length ≠ ([1000, 1000] : List ℚ).length := by
  constructor
  · rw [pipeline_get_sweep_data_run pipelineFileLenMismatch 0 swpLenMismatch 0 0
      (by decide) (by decide)]
    simp [swpLenMismatch, strStartsWith, charsPrefix, lookupEntry]
  · decide

/-- C3 (amended): the ConvertedReader enforces equal lengths — success
implies them; the PostProcessedReader returns arrays whose lengths are
exactly those of the stored datasets, and the RawAcquisitionReader
returns the stored arrays themselves, so for those two dialects the
lengths agree exactly when the file's stored arrays agree. -/
theorem C3_length_parity_per_dialect :
    (∀ (f : XFile) (n : Nat) (sd : SweepData),
      NwbXReader.get_sweep_data f n = .ok sd →
      sd.stimulus.length = sd.response.length) ∧
    (∀ (f : PipelineFile) (n : Nat) (swp : PipelineSweep) (sd : SweepData),
      lookupEntry f.sweeps n = some swp →
      NwbPipelineReader.get_sweep_data f n = .ok sd →
      sd.stimulus.length = swp.stimulus_data.length ∧
      sd.response.length = swp.response_data.length) ∧
    (∀ (geph : List ℚ → List ℚ → ℚ → Int × Int) (gseph : List ℚ → Int × Int)
       (f : MiesFile) (n : Nat) (swp : MiesSweep) (sd : SweepData),
      lookupEntry f.sweeps n = some swp →
      NwbMiesReader.get_sweep_data geph gseph f n = .ok sd →
      sd.stimulus = swp.stimulus_data ∧ sd.response = swp.response_data) := by
  refine ⟨?_, ?_, ?_⟩
  · intro f n sd hok
    obtain ⟨series, resp, si, _, _, hsd, hlen⟩ := x_get_sweep_data_ok f n sd hok
    rw [hsd]
    exact hlen
  · intro f n swp sd hswp hok
    cases hv : NwbReader.get_pipeline_version f.generated_by with
    | error e =>
      simp only [NwbPipelineReader.get_sweep_data, hswp, hv] at hok
      cases hok
    | ok p =>
      obtain ⟨major, minor⟩ := p
      rw [pipeline_get_sweep_data_run f n swp major minor hswp hv] at hok
      cases hu : swp.stimulus_unit_attr with
      | none => simp only [hu] at hok; cases hok
      | some u =>
        simp only [hu] at hok
        by_cases hA : strStartsWith u "A" = true
        · rw [if_pos hA] at hok
          by_cases h0 : swp.idx_start = 0
          · rw [if_pos h0] at hok
            injection hok with hok
            subst hok
            constructor <;> (simp only [List.length_map]; split <;> simp)
          · rw [if_neg h0] at hok; cases hok
        · rw [if_neg hA] at hok
          by_cases hV : strStartsWith u "V" = true
          · rw [if_pos hV] at hok
            by_cases h0 : swp.idx_start = 0
            · rw [if_pos h0] at hok
              injection hok with hok
              subst hok
              constructor <;> (simp only [List.length_map]; split <;> simp)
            · rw [if_neg h0] at hok; cases hok
          · rw [if_neg hV] at hok; cases hok
  · intro geph gseph f n swp sd hswp hok
    simp only [NwbMiesReader.get_sweep_data, hswp] at hok
    cases hu : swp.stimulus_unit_attr with
    | none =>
      simp only [hu] at hok
      by_cases hc : swp.ancestry.contains "CurrentClampSeries" = true
      · simp only [hc, if_true] at hok
        injection hok with hok; subst hok; exact ⟨rfl, rfl⟩
      · by_cases hvv : swp.ancestry.contains "VoltageClampSeries" = true
        · simp only [hc, hvv, Bool.false_eq_true, if_false, if_true] at hok
          injection hok with hok; subst hok; exact ⟨rfl, rfl⟩
        · simp only [hc, hvv, Bool.false_eq_true, if_false] at hok
          cases hok
    | some u =>
      simp only [hu] at hok
      by_cases hA : strStartsWith u "A" = true
      · simp only [hA, if_true] at hok
        by_cases hc : swp.ancestry.contains "CurrentClampSeries" = true
        · simp only [hc, if_true] at hok
          injection hok with hok; subst hok; exact ⟨rfl, rfl⟩
        · by_cases hvv : swp.ancestry.contains "VoltageClampSeries" = true
          · simp only [hc, hvv, Bool.false_eq_true, if_false, if_true] at hok
            injection hok with hok; subst hok; exact ⟨rfl, rfl⟩
          · simp only [hc, hvv, Bool.false_eq_true, if_false] at hok
            cases hok
      · by_cases hVu : strStartsWith u "V" = true
        · simp only [hA, hVu, Bool.false_eq_true, if_false, if_true] at hok
          by_cases hc : swp.ancestry.contains "CurrentClampSeries" = true
          · simp only [hc, if_true] at hok
            injection hok with hok; subst hok; exact ⟨rfl, rfl⟩
          · by_cases hvv : swp.ancestry.contains "VoltageClampSeries" = true
            · simp only [hc, hvv, Bool.false_eq_true, if_false, if_true] at hok
              injection hok with hok; subst hok; exact ⟨rfl, rfl⟩
            · simp only [hc, hvv, Bool.false_eq_true, if_false] at hok
              cases hok
        · simp only [hA, hVu, Bool.false_eq_true, if_false] at hok
          cases hok

/-- Expected run result on `xFileEx` sweep 3. -/
def sdXEx : SweepData :=
  { stimulus := [1, 1], response := [1, 1], stimulus_unit := "Amps"
  , index_range := (0, 1), sampling_rate := 50 }

/-- C3 witness: instantiates the ConvertedReader conjunct of the amended
length theorem on a concrete successful run. -/
theorem C3_witness_converted_equal_lengths :
    NwbXReader.get_sweep_data xFileEx 3 = Except.ok sdXEx ∧
    sdXEx.stimulus.length = sdXEx.response.length := by
  have hok : NwbXReader.get_sweep_data xFileEx 3 = Except.ok sdXEx := by
    simp [NwbXReader.get_sweep_data, NwbXReader.seriesLoop, getRawDataSourceType,
          get_long_unit_name, strStartsWith, charsPrefix, lookupEntry, xFileEx,
          stimSeriesEx, respSeriesEx, SeriesKind.isResponse, SeriesKind.isStimulus,
          sdXEx]
  exact ⟨hok, C3_length_parity_per_dialect.1 xFileEx 3 sdXEx hok⟩

/-- C4 (amended): for the ConvertedReader, every successful sweep with a
nonempty stimulus satisfies 0 ≤ start ≤ end < len(stimulus); the
PostProcessedReader takes its range from the file's sweep/experiment
metadata and the RawAcquisitionReader from the external epoch routines,
in both cases without validating it against the array length. -/
theorem C4_converted_index_range_invariant (f : XFile) (n : Nat)
    (sd : SweepData)
    (hok : NwbXReader.get_sweep_data f n = .ok sd) (hne : sd.stimulus ≠ []) :
    0 ≤ sd.index_range.1 ∧ sd.index_range.1 ≤ sd.index_range.2 ∧
    sd.index_range.2 < (sd.stimulus.length : Int) := by
  obtain ⟨series, resp, si, hser, hloop, hsd, hlen⟩ :=
    x_get_sweep_data_ok f n sd hok
  have hrange := seriesLoop_stim_range
    (getRawDataSourceType f.experiment_description == "abf")
    series (some resp) (some si) none none
    (by intro si0 h; cases h) hloop si rfl
  subst hsd
  simp only [] at hne ⊢
  rw [hrange]
  have hpos : 0 < si.stimulus.length := List.length_pos.mpr hne
  constructor
  · simp
  constructor
  · simp only []
    omega
  · simp only []
    omega

/-- Expected (malformed) run result on `pipelineFileWithExperiment`: the
experiment entry's range (2, 4) lies outside the 1-sample arrays. -/
def sdBadRange : SweepData :=
  { stimulus := [1000], response := [1000000000000], stimulus_unit := "Volts"
  , index_range := (2, 4), sampling_rate := 2 }

/-- C4: the spec claims every dialect returns an index_range satisfying
0 ≤ start ≤ end < len(stimulus).  The PostProcessedReader copies the
experiment entry's range without validation, so a file whose experiment
entry declares (start 2, count 3) over 1-sample arrays succeeds with
range (2, 4) although the stimulus has length 1. -/
theorem C4_counterexample_range_beyond_length :
    NwbPipelineReader.get_sweep_data pipelineFileWithExperiment 0 =
      Except.ok sdBadRange ∧
    ¬(0 ≤ sdBadRange.index_range.1 ∧
      sdBadRange.index_range.1 ≤ sdBadRange.index_range.2 ∧
      sdBadRange.index_range.2 < (sdBadRange.stimulus.length : Int)) := by
  constructor
  · rw [pipeline_get_sweep_data_run pipelineFileWithExperiment 0 swpVolts 0 0
      (by decide) (by decide)]
    simp [swpVolts, strStartsWith, charsPrefix, lookupEntry, sdBadRange,
          pipelineFileWithExperiment]
  · decide

/-- C4 witness: instantiates the amended invariant on the concrete
ConvertedReader run of `xFileEx`. -/
theorem C4_witness_converted_invariant :
    NwbXReader.get_sweep_data xFileEx 3 = Except.ok sdXEx ∧
    sdXEx.stimulus ≠ [] ∧
    (0 ≤ sdXEx.index_range.1 ∧ sdXEx.index_range.1 ≤ sdXEx.index_range.2 ∧
     sdXEx.index_range.2 < (sdXEx.stimulus.length : Int)) := by
  have hok : NwbXReader.get_sweep_data xFileEx 3 = Except.ok sdXEx := by
    simp [NwbXReader.get_sweep_data, NwbXReader.seriesLoop, getRawDataSourceType,
          get_long_unit_name, strStartsWith, charsPrefix, lookupEntry, xFileEx,
          stimSeriesEx, respSeriesEx, SeriesKind.isResponse, SeriesKind.isStimulus,
          sdXEx]
  exact ⟨hok, by decide,
    C4_converted_index_range_invariant xFileEx 3 sdXEx hok (by decide)⟩

/-- C7: for the RawAcquisitionReader, the index range is computed by
dispatching on the response series' ancestry: if it contains the
current-clamp kind, the external experiment-epoch routine is applied to
the stimulus, response and sampling rate; otherwise, if it contains the
voltage-clamp kind, the external sweep-epoch routine is applied to the
response alone; any other ancestry is a fatal unknown-clamp-mode error.
The external routines, defined outside src/, are universally quantified
function parameters. -/
theorem C7_mies_clamp_dispatch
    (geph : List ℚ → List ℚ → ℚ → Int × Int) (gseph : List ℚ → Int × Int)
    (f : MiesFile) (n : Nat) (swp : MiesSweep)
    (hswp : lookupEntry f.sweeps n = some swp)
    (hunit : swp.stimulus_unit_attr = none ∨
      ∃ u, swp.stimulus_unit_attr = some u ∧
        (strStartsWith u "A" = true ∨ strStartsWith u "V" = true)) :
    (swp.ancestry.contains "CurrentClampSeries" = true →
      ∃ sd, NwbMiesReader.get_sweep_data geph gseph f n = .ok sd ∧
        sd.index_range = geph swp.stimulus_data swp.response_data swp.rate) ∧
    (swp.ancestry.contains "CurrentClampSeries" = false →
      swp.ancestry.contains "VoltageClampSeries" = true →
      ∃ sd, NwbMiesReader.get_sweep_data geph gseph f n = .ok sd ∧
        sd.index_range = gseph swp.response_data) ∧
    (swp.ancestry.contains "CurrentClampSeries" = false →
      swp.ancestry.contains "VoltageClampSeries" = false →
      NwbMiesReader.get_sweep_data geph gseph f n =
        .error (.valueError "Unknown Clamp Mode")) := by
  have hu : (match swp.stimulus_unit_attr with
      | some u =>
        if strStartsWith u "A" then Except.ok "Amps"
        else if strStartsWith u "V" then Except.ok "Volts"
        else Except.error (PyErr.assertionError
          "Stimulus time series unit not recognized")
      | none => Except.ok "Unknown") =
      Except.ok (match swp.stimulus_unit_attr with
        | some u => if strStartsWith u "A" then "Amps" else "Volts"
        | none => "Unknown") := by
    rcases hunit with h | ⟨u, hsome, hAV⟩
    · rw [h]
    · rw [hsome]
      rcases hAV with hA | hV
      · simp [hA]
      · by_cases hA : strStartsWith u "A" = true
        · simp [hA]
        · simp [hA, hV]
  refine ⟨?_, ?_, ?_⟩
  · intro hc
    refine ⟨{ stimulus := swp.stimulus_data, response := swp.response_data
            , stimulus_unit := (match swp.stimulus_unit_attr with
                | some u => if strStartsWith u "A" then "Amps" else "Volts"
                | none => "Unknown")
            , index_range := geph swp.stimulus_data swp.response_data swp.rate
            , sampling_rate := swp.rate }, ?_, rfl⟩
    simp only [NwbMiesReader.get_sweep_data, hswp, hu, hc, if_true]
  · intro hc hv
    refine ⟨{ stimulus := swp.stimulus_data, response := swp.response_data
            , stimulus_unit := (match swp.stimulus_unit_attr with
                | some u => if strStartsWith u "A" then "Amps" else "Volts"
                | none => "Unknown")
            , index_range := gseph swp.response_data
            , sampling_rate := swp.rate }, ?_, rfl⟩
    simp only [NwbMiesReader.get_sweep_data, hswp, hu, hc, hv,
      Bool.false_eq_true, if_false, if_true]
  · intro hc hv
    simp only [NwbMiesReader.get_sweep_data, hswp, hu, hc, hv,
      Bool.false_eq_true, if_false]

/-- Concrete raw MIES sweep whose response ancestry names
"VoltageClampSeries". -/
def miesSweepVC : MiesSweep :=
  { response_data := [1, 1, 1], rate := 2, stimulus_data := [5, 5, 5]
  , stimulus_unit_attr := some "V"
  , ancestry := ["TimeSeries", "PatchClampSeries", "VoltageClampSeries"] }

/-- File holding that sweep under number 1. -/
def miesFileVC : MiesFile := { sweeps := [(1, miesSweepVC)] }

/-- C7 witness: instantiates the dispatch theorem on a concrete
voltage-clamp file with concrete epoch routines: the sweep-epoch routine
applied to the response computes the range, not the experiment-epoch
routine. -/
theorem C7_witness_voltage_clamp_rule :
    miesSweepVC.ancestry.contains "CurrentClampSeries" = false ∧
    miesSweepVC.ancestry.contains "VoltageClampSeries" = true ∧
    ∃ sd, NwbMiesReader.get_sweep_data (fun _ _ _ => (7, 8))
        (fun r => (0, (r.length : Int) - 1)) miesFileVC 1 = .ok sd ∧
      sd.index_range =
        (fun r : List ℚ => (0, (r.length : Int) - 1)) miesSweepVC.response_data :=
  ⟨by decide, by decide,
    (C7_mies_clamp_dispatch (fun _ _ _ => (7, 8))
      (fun r => (0, (r.length : Int) - 1)) miesFileVC 1 miesSweepVC
      (by decide) (Or.inr ⟨"V", rfl, Or.inr (by decide)⟩)).2.1
      (by decide) (by decide)⟩
